import Mathlib

/-!
Shallow embedding of the topodaily survey application (Python sources under
src/) together with theorems settling the specification claims about its
access policy, survey repository, location hierarchy and entry-form state.

Conventions of the embedding:
- Python strings are Lean `String`; `str.strip()` is modelled by `pyStrip`
  (ASCII whitespace, which covers every string occurring in this code base);
  Python `list.sort()` on strings is modelled by `sortStrings` (stable
  insertion sort by code point, matching CPython ordering on these inputs).
- The SQL `leves` table is a `List LeveRow`; an SQL statement's WHERE clause
  becomes a Boolean row predicate, UPDATE becomes `List.map` and DELETE
  becomes `List.filter`.
- Fallible database connections are an explicit `connOk : Bool` argument
  (`get_connection()` returning `None` in the source).
- The functions that first check ownership on one connection and then write
  on a second connection take the two table snapshots `dbCheck` and
  `dbWrite` separately, exactly as the source opens two connections; a
  sequential run is the special case `dbCheck = dbWrite`.
- The user-facing French message strings are represented by the
  constructors of `LeveMsg`; each constructor stands for one distinct
  message literal of the source, so two results carry the same constructor
  exactly when the source returns the same message text.
-/

namespace Topodaily

/-! ### String helpers (models of Python str.strip and list.sort) -/

def isSpaceChar (c : Char) : Bool :=
  c = ' ' || c = '\t' || c = '\n' || c = '\r'

/-- Model of Python `str.strip()` restricted to ASCII whitespace. -/
def pyStrip (s : String) : String :=
  ⟨((s.data.dropWhile isSpaceChar).reverse.dropWhile isSpaceChar).reverse⟩

def lexLe : List Char → List Char → Bool
  | [], _ => true
  | _ :: _, [] => false
  | a :: as, b :: bs =>
    if a.val < b.val then true
    else if b.val < a.val then false
    else lexLe as bs

def strLe (a b : String) : Bool := lexLe a.data b.data

def insertSorted (v : String) : List String → List String
  | [] => [v]
  | x :: xs => if strLe v x then v :: x :: xs else x :: insertSorted v xs

/-- Model of Python `list.sort()` on strings (code-point lexicographic). -/
def sortStrings : List String → List String
  | [] => []
  | x :: xs => insertSorted x (sortStrings xs)

/-! ### Access policy functions

Role-gate functions translated from src/auth.py, src/leves.py and the
access check of src/pages/saisie.py. Python `x in [a, b]` becomes a
disjunction of equalities. -/

/-- src/auth.py lines 150-152: `can_enter_surveys`. -/
def auth_can_enter_surveys (user_role : String) : Bool :=
  decide (user_role = "superviseur" ∨ user_role = "administrateur")

/-- src/leves.py lines 345-347: `can_enter_surveys`. -/
def leves_can_enter_surveys (user_role : String) : Bool :=
  decide (user_role = "superviseur" ∨ user_role = "administrateur" ∨ user_role = "admin")

/-- src/pages/saisie.py line 122: the access check inside `show_saisie_page`
returns from the page with an error unless the role passes this test. -/
def saisie_page_gate (user_role : String) : Bool :=
  decide (user_role = "superviseur" ∨ user_role = "admin")

/-- src/auth.py lines 154-160: `can_modify_survey(user_role, survey_creator,
current_user)`. -/
def can_modify_survey (user_role survey_creator current_user : String) : Bool :=
  if user_role = "administrateur" then true
  else if user_role = "superviseur" ∧ survey_creator = current_user then true
  else false

/-- src/leves.py lines 349-353: `can_edit_leve(current_username, user_role,
leve_superviseur)`. -/
def can_edit_leve (current_username user_role leve_superviseur : String) : Bool :=
  if user_role = "administrateur" ∨ user_role = "admin" then true
  else decide (current_username = leve_superviseur)

/-! ### Persisted schema (src/db.py) -/

/-- src/db.py lines 48-61: the column names of `CREATE TABLE IF NOT EXISTS
leves` in `init_db`. -/
def init_db_leves_columns : List String :=
  ["id", "date", "village", "region", "commune", "type", "quantite",
   "appareil", "topographe", "created_at"]

/-- src/leves.py lines 20-23: the column names listed by the INSERT
statement of `add_leve`. -/
def add_leve_insert_columns : List String :=
  ["date", "village", "region", "commune", "type", "quantite",
   "appareil", "topographe", "superviseur"]

/-- An SQL INSERT naming column list `cols` is accepted by a table whose
schema has exactly the columns `schema` iff every named column exists
(modelling the storage engine rejecting unknown columns). -/
def insert_columns_accepted (schema cols : List String) : Bool :=
  cols.all (fun c => schema.contains c)

/-! ### Claim C1 -/

/-- Claim C1 counterexample: the claim requires
`canEditOrDeleteSurvey(role, acting, owner)` to be false for a
`topographe`-role actor even when the acting username equals the record
owner, and to be true for role `admin`; the source functions violate both:
`can_edit_leve` accepts a topographe whose username matches the owner, and
`can_modify_survey` rejects the role `admin`. -/
theorem can_edit_leve_counterexample :
    can_edit_leve "alice" "topographe" "alice" = true ∧
    can_modify_survey "admin" "bob" "bob" = false := by
  decide

/-- Claim C1 (amended): the actual truth tables of the two edit/delete
policy functions. `can_modify_survey(role, creator, current)` is true iff
role is `administrateur`, or role is `superviseur` and creator = current
(role `admin` is not accepted). `can_edit_leve(current, role, owner)` is
true iff role is `administrateur` or `admin`, or current = owner regardless
of role — in particular a `topographe` actor whose username equals the
record owner is accepted, and an absent (empty) owner is accepted whenever
the acting username is also empty. -/
theorem edit_policy_characterization (role acting owner : String) :
    (can_modify_survey role owner acting = true ↔
      role = "administrateur" ∨ (role = "superviseur" ∧ owner = acting)) ∧
    (can_edit_leve acting role owner = true ↔
      role = "administrateur" ∨ role = "admin" ∨ acting = owner) := by
  constructor
  · unfold can_modify_survey
    split_ifs with h1 h2
    · simp [h1]
    · simp [h2.1, h2.2]
    · simp only [Bool.false_eq_true, false_iff]
      rintro (h | ⟨hs, hoc⟩)
      · exact h1 h
      · exact h2 ⟨hs, hoc⟩
  · unfold can_edit_leve
    split_ifs with h1
    · constructor
      · intro _
        rcases h1 with h | h
        · exact Or.inl h
        · exact Or.inr (Or.inl h)
      · intro _
        rfl
    · push_neg at h1
      simp [h1.1, h1.2, decide_eq_true_eq]

/-! ### Claim C8 -/

/-- Claim C8 (code bug): the three survey-entry gates do not accept the
same set of roles. `leves.can_enter_surveys` accepts
{superviseur, administrateur, admin} as the claim states, but
`auth.can_enter_surveys` rejects `admin`, and the entry page's access
check (`show_saisie_page`) rejects `administrateur` — the very role its
own error message ("only supervisors and administrators may enter
surveys") says is allowed, and the role held by the seeded admin
account. -/
theorem survey_entry_gates_disagree :
    leves_can_enter_surveys "superviseur" = true ∧
    leves_can_enter_surveys "administrateur" = true ∧
    leves_can_enter_surveys "admin" = true ∧
    leves_can_enter_surveys "topographe" = false ∧
    auth_can_enter_surveys "admin" = false ∧
    saisie_page_gate "administrateur" = false ∧
    saisie_page_gate "admin" = true ∧
    auth_can_enter_surveys "administrateur" = true := by
  decide

/-! ### Claim C2 -/

/-- Claim C2 (code bug): `add_leve` inserts into a `superviseur` column,
but the `leves` table created by `init_db` has no such column, so on a
freshly initialized database the INSERT is rejected by the storage engine
and no record is persisted. -/
theorem leves_schema_missing_superviseur :
    "superviseur" ∈ add_leve_insert_columns ∧
    "superviseur" ∉ init_db_leves_columns ∧
    insert_columns_accepted init_db_leves_columns add_leve_insert_columns = false := by
  decide

/-! ### Survey repository (src/leves.py)

A `leves` table row; `created_at` is the storage-assigned timestamp. -/

structure LeveRow where
  id : Nat
  date : String
  village : String
  region : String
  commune : String
  type : String
  quantite : Int
  appareil : String
  topographe : String
  superviseur : String
  created_at : String
deriving DecidableEq

/-- The distinct user-facing message strings returned by the repository
write operations; each constructor stands for exactly one French message
literal of src/leves.py, so two results carry equal messages iff they
carry the same constructor. `notFoundOrNotAuthorizedDelete` is the single
combined literal of line 193 and `notFoundOrNotAuthorizedEdit` the one of
line 232 (neither distinguishes a missing row from a non-owned row). -/
inductive LeveMsg where
  | notAuthorizedDelete
  | notAuthorizedEdit
  | dbConnectionError
  | notFoundOrNotAuthorizedDelete
  | notFoundOrNotAuthorizedEdit
  | deleteSuccess
  | editSuccess
deriving DecidableEq

/-- Result of an ownership-checked write: the table after the operation,
the success flag, and the returned message. -/
structure OpResult where
  db : List LeveRow
  ok : Bool
  msg : LeveMsg
deriving DecidableEq

/-- src/leves.py lines 145-172: `is_leve_owner` fetches the `superviseur`
field of the row with the given id and decides whether the user may
modify/delete it; a missing row yields false. -/
def is_leve_owner (db : List LeveRow) (leve_id : Nat) (username user_role : String) : Bool :=
  match db.find? (fun r => decide (r.id = leve_id)) with
  | none => false
  | some r =>
    if user_role = "administrateur" ∨ user_role = "admin" then true
    else if user_role = "superviseur" ∧ r.superviseur = username then true
    else false

/-- The row predicate of the conditional DELETE/UPDATE: admin roles match
on id alone, every other role on id AND superviseur = acting username
(src/leves.py lines 185-190 and 218-229). -/
def writePred (leve_id : Nat) (username user_role : String) : LeveRow → Bool :=
  if user_role = "administrateur" ∨ user_role = "admin" then
    fun r => decide (r.id = leve_id)
  else
    fun r => decide (r.id = leve_id) && decide (r.superviseur = username)

/-- src/leves.py lines 174-203: `delete_user_leve`. The ownership check
runs against the snapshot `dbCheck` (first connection) and the conditional
DELETE against `dbWrite` (second connection); a zero-row DELETE returns
failure with the combined not-found-or-not-authorized message. -/
def delete_user_leve (dbCheck dbWrite : List LeveRow) (leve_id : Nat)
    (username user_role : String) : OpResult :=
  if is_leve_owner dbCheck leve_id username user_role = false then
    { db := dbWrite, ok := false, msg := LeveMsg.notAuthorizedDelete }
  else
    let pred := writePred leve_id username user_role
    if (dbWrite.filter pred).length = 0 then
      { db := dbWrite, ok := false, msg := LeveMsg.notFoundOrNotAuthorizedDelete }
    else
      { db := dbWrite.filter (fun r => !(pred r)), ok := true,
        msg := LeveMsg.deleteSuccess }

/-- The mutable fields accepted by `update_leve` (everything the UPDATE's
SET clause names: date, village, region, commune, type, quantite,
appareil, topographe — not superviseur, not created_at, not id). -/
structure LeveUpdate where
  date : String
  village : String
  region : String
  commune : String
  type_leve : String
  quantite : Int
  appareil : String
  topographe : String
deriving DecidableEq

/-- Applying the SET clause of src/leves.py lines 220-229 to one row. -/
def applySet (u : LeveUpdate) (q : Int) (r : LeveRow) : LeveRow :=
  { r with date := u.date, village := u.village, region := u.region,
           commune := u.commune, type := u.type_leve, quantite := q,
           appareil := u.appareil, topographe := u.topographe }

/-- src/leves.py lines 205-242: `update_leve`, with the same two-snapshot
convention as `delete_user_leve`. `int(quantite) if quantite else 0`
on an integer is the identity with 0 mapped to 0. -/
def update_leve (dbCheck dbWrite : List LeveRow) (leve_id : Nat) (u : LeveUpdate)
    (username user_role : String) : OpResult :=
  if is_leve_owner dbCheck leve_id username user_role = false then
    { db := dbWrite, ok := false, msg := LeveMsg.notAuthorizedEdit }
  else
    let q : Int := if u.quantite = 0 then 0 else u.quantite
    let pred := writePred leve_id username user_role
    if (dbWrite.filter pred).length = 0 then
      { db := dbWrite, ok := false, msg := LeveMsg.notFoundOrNotAuthorizedEdit }
    else
      { db := dbWrite.map (fun r => if pred r then applySet u q r else r),
        ok := true, msg := LeveMsg.editSuccess }

/-- src/leves.py lines 10-33: `add_leve` performs no validation of its
arguments: when the connection succeeds it unconditionally inserts the row
(the storage-assigned id and created_at are the `newId` and `now`
arguments) and reports success; it fails only when no connection is
available. -/
def add_leve (connOk : Bool) (db : List LeveRow) (newId : Nat) (now : String)
    (date village region commune type_leve : String) (quantite : Int)
    (appareil topographe superviseur : String) : List LeveRow × Bool :=
  if connOk = false then (db, false)
  else
    let q : Int := if quantite = 0 then 0 else quantite
    (db ++ [{ id := newId, date := date, village := village, region := region,
              commune := commune, type := type_leve, quantite := q,
              appareil := appareil, topographe := topographe,
              superviseur := superviseur, created_at := now }], true)

/-- Dates as (year, month, day) triples, the shape of Python
`datetime.date` values. -/
structure Ymd where
  y : Nat
  m : Nat
  d : Nat
deriving DecidableEq

/-- Python date comparison `a > b` (lexicographic on year, month, day). -/
def ymdAfter (a b : Ymd) : Bool :=
  if a.y ≠ b.y then decide (a.y > b.y)
  else if a.m ≠ b.m then decide (a.m > b.m)
  else decide (a.d > b.d)

/-- The error messages `validate_leve_data` can emit (src/leves.py lines
415-446), one constructor per message literal. The invalid-date-format and
non-integer-quantity branches apply only to string-typed arguments and
cannot fire on the date/int values of this embedding. -/
inductive LeveDataError where
  | dateRequired
  | villageRequired
  | typeRequired
  | quantiteNegative
deriving DecidableEq

/-- src/leves.py lines 415-446: `validate_leve_data(date, village,
type_leve, quantite)`. A falsy (absent) date is `none`; a present date
value passes the date branch (the strptime format check applies only to
strings). The quantity block is guarded by Python truthiness, so
`quantite = 0` skips it entirely, and inside it only negative values are
rejected. No rule compares the date against today. -/
def validate_leve_data (dateV : Option Ymd) (village type_leve : String)
    (quantite : Int) : List LeveDataError :=
  (match dateV with
   | none => [LeveDataError.dateRequired]
   | some _ => []) ++
  (if village = "" ∨ pyStrip village = "" then [LeveDataError.villageRequired] else []) ++
  (if type_leve = "" ∨ pyStrip type_leve = "" then [LeveDataError.typeRequired] else []) ++
  (if quantite ≠ 0 then
    (if quantite < 0 then [LeveDataError.quantiteNegative] else [])
   else [])

/-! ### Claim C3 -/

/-- Claim C3: for a non-admin actor whose policy check passed, both write
operations re-encode ownership in the row predicate itself (id matches AND
superviseur = acting username): the conditional DELETE removes exactly the
rows satisfying that predicate and the conditional UPDATE rewrites exactly
those rows; and whenever the conditional write matches zero rows the
operation returns failure carrying the single combined
not-found-or-not-authorized message (which does not distinguish the two
cases) with the table unchanged — a zero-row write is never reported as
success, since success is returned only when the match count is
non-zero. -/
theorem conditional_write_zero_rows (dbCheck dbWrite : List LeveRow)
    (leve_id : Nat) (u : LeveUpdate) (username user_role : String)
    (hadm1 : user_role ≠ "administrateur") (hadm2 : user_role ≠ "admin")
    (hpol : is_leve_owner dbCheck leve_id username user_role = true) :
    (writePred leve_id username user_role =
      fun r => decide (r.id = leve_id) && decide (r.superviseur = username)) ∧
    ((dbWrite.filter (fun r => decide (r.id = leve_id) && decide (r.superviseur = username))).length = 0 →
      delete_user_leve dbCheck dbWrite leve_id username user_role =
        { db := dbWrite, ok := false, msg := LeveMsg.notFoundOrNotAuthorizedDelete } ∧
      update_leve dbCheck dbWrite leve_id u username user_role =
        { db := dbWrite, ok := false, msg := LeveMsg.notFoundOrNotAuthorizedEdit }) ∧
    ((delete_user_leve dbCheck dbWrite leve_id username user_role).ok = true →
      (dbWrite.filter (fun r => decide (r.id = leve_id) && decide (r.superviseur = username))).length ≠ 0 ∧
      (delete_user_leve dbCheck dbWrite leve_id username user_role).db =
        dbWrite.filter (fun r => !(decide (r.id = leve_id) && decide (r.superviseur = username)))) ∧
    ((update_leve dbCheck dbWrite leve_id u username user_role).ok = true →
      (dbWrite.filter (fun r => decide (r.id = leve_id) && decide (r.superviseur = username))).length ≠ 0 ∧
      (update_leve dbCheck dbWrite leve_id u username user_role).db =
        dbWrite.map (fun r =>
          if decide (r.id = leve_id) && decide (r.superviseur = username) then
            applySet u (if u.quantite = 0 then 0 else u.quantite) r
          else r)) := by
  have hpred : writePred leve_id username user_role =
      fun r => decide (r.id = leve_id) && decide (r.superviseur = username) := by
    unfold writePred
    rw [if_neg]
    push_neg
    exact ⟨hadm1, hadm2⟩
  refine ⟨hpred, ?_, ?_, ?_⟩
  · intro hzero
    constructor
    · unfold delete_user_leve
      rw [hpol]
      simp only [Bool.true_eq_false, if_false, hpred, hzero]
      simp
    · unfold update_leve
      rw [hpol]
      simp only [Bool.true_eq_false, if_false, hpred, hzero]
      simp
  · intro hok
    unfold delete_user_leve at hok ⊢
    rw [hpol] at hok ⊢
    simp only [Bool.true_eq_false, if_false, hpred] at hok ⊢
    by_cases hz : (dbWrite.filter (fun r => decide (r.id = leve_id) && decide (r.superviseur = username))).length = 0
    · rw [if_pos hz] at hok
      exact absurd hok (by simp)
    · rw [if_neg hz] at hok ⊢
      exact ⟨hz, rfl⟩
  · intro hok
    unfold update_leve at hok ⊢
    rw [hpol] at hok ⊢
    simp only [Bool.true_eq_false, if_false, hpred] at hok ⊢
    by_cases hz : (dbWrite.filter (fun r => decide (r.id = leve_id) && decide (r.superviseur = username))).length = 0
    · rw [if_pos hz] at hok
      exact absurd hok (by simp)
    · rw [if_neg hz] at hok ⊢
      exact ⟨hz, rfl⟩

/-- Claim C3 witness: a supervisor who owns row 1 at check time but whose
row has vanished at write time (the race the conditional write guards
against) gets the combined failure message and an unchanged table. -/
theorem conditional_write_zero_rows_witness :
    delete_user_leve
      [{ id := 1, date := "2026-10-10", village := "Mbour 1", region := "Thies",
         commune := "Mbour", type := "Champs", quantite := 5, appareil := "LT60H",
         topographe := "Mamadou GUEYE", superviseur := "bob", created_at := "t0" }]
      [] 1 "bob" "superviseur" =
      { db := [], ok := false, msg := LeveMsg.notFoundOrNotAuthorizedDelete } := by
  have h := conditional_write_zero_rows
    [{ id := 1, date := "2026-10-10", village := "Mbour 1", region := "Thies",
       commune := "Mbour", type := "Champs", quantite := 5, appareil := "LT60H",
       topographe := "Mamadou GUEYE", superviseur := "bob", created_at := "t0" }]
    [] 1
    { date := "2026-10-11", village := "Mbour 1", region := "Thies",
      commune := "Mbour", type_leve := "Champs", quantite := 6,
      appareil := "LT60H", topographe := "Mamadou GUEYE" }
    "bob" "superviseur" (by decide) (by decide) (by decide)
  exact (h.2.1 (by decide)).1

/-! ### Claim C10 -/

/-- Claim C10: every execution of `update_leve` (any role, including the
admin branch, and every outcome) leaves the table a pointwise image of the
previous table under a function preserving each row's id, superviseur and
created_at: the SET clause names only date, village, region, commune,
type, quantite, appareil and topographe, so an update can never transfer
ownership or alter the creation timestamp. -/
theorem update_leve_frame (dbCheck dbWrite : List LeveRow) (leve_id : Nat)
    (u : LeveUpdate) (username user_role : String) :
    ∃ f : LeveRow → LeveRow,
      (update_leve dbCheck dbWrite leve_id u username user_role).db = dbWrite.map f ∧
      ∀ r : LeveRow, (f r).id = r.id ∧ (f r).superviseur = r.superviseur ∧
        (f r).created_at = r.created_at := by
  unfold update_leve
  by_cases hpol : is_leve_owner dbCheck leve_id username user_role = false
  · refine ⟨fun r => r, ?_, fun r => ⟨rfl, rfl, rfl⟩⟩
    rw [if_pos hpol]
    simp
  · rw [if_neg hpol]
    by_cases hz : (dbWrite.filter (writePred leve_id username user_role)).length = 0
    · refine ⟨fun r => r, ?_, fun r => ⟨rfl, rfl, rfl⟩⟩
      simp only [hz, if_pos rfl]
      simp
    · refine ⟨fun r => if writePred leve_id username user_role r then
        applySet u (if u.quantite = 0 then 0 else u.quantite) r else r, ?_, ?_⟩
      · simp only [if_neg hz]
      · intro r
        by_cases hp : writePred leve_id username user_role r = true
        · simp only [hp, if_pos rfl]
          exact ⟨rfl, rfl, rfl⟩
        · simp only [hp]
          simp

/-! ### Claim C4 -/

/-- Claim C4 counterexample: the claim requires the repository create to
reject quantite = 0 and future dates and insert nothing; in fact
`add_leve` reports success and inserts the record for quantite = 0 with
date 2999-01-01, and `validate_leve_data` (which `add_leve` never calls)
reports no violation at all for those values. -/
theorem add_leve_no_validation_counterexample :
    (add_leve true [] 1 "t0" "2999-01-01" "Mbour 1" "Thies" "Mbour" "Champs"
       0 "LT60H" "Mamadou GUEYE" "bob").2 = true ∧
    (add_leve true [] 1 "t0" "2999-01-01" "Mbour 1" "Thies" "Mbour" "Champs"
       0 "LT60H" "Mamadou GUEYE" "bob").1.length = 1 ∧
    validate_leve_data (some { y := 2999, m := 1, d := 1 }) "Mbour 1" "Champs" 0 = [] := by
  decide

/-- Claim C4 (amended): the repository boundary performs no quantite or
date validation. Whenever a connection is available, `add_leve` inserts
exactly one record and reports success for every input — including any
quantite ≤ 0 and any date — and `validate_leve_data`, which `add_leve`
does not invoke, reports no violation for quantite = 0 with any date
(future ones included) when village and type are non-blank. -/
theorem add_leve_unconditional_insert (db : List LeveRow) (newId : Nat)
    (now date village region commune type_leve : String) (quantite : Int)
    (appareil topographe superviseur : String) (d : Ymd)
    (hq : quantite ≤ 0) :
    (add_leve true db newId now date village region commune type_leve
       quantite appareil topographe superviseur).2 = true ∧
    (add_leve true db newId now date village region commune type_leve
       quantite appareil topographe superviseur).1.length = db.length + 1 ∧
    validate_leve_data (some d) "Mbour 1" "Champs" 0 = [] := by
  refine ⟨?_, ?_, by rfl⟩
  · unfold add_leve
    simp
  · unfold add_leve
    simp

/-- Claim C4 witness. -/
theorem add_leve_unconditional_insert_witness :
    (add_leve true [] 7 "t1" "2999-12-31" "Plateau" "Dakar" "Dakar" "Champs"
       (-3) "TRIMBLE" "Arona FALL" "bob").2 = true ∧
    (add_leve true [] 7 "t1" "2999-12-31" "Plateau" "Dakar" "Dakar" "Champs"
       (-3) "TRIMBLE" "Arona FALL" "bob").1.length = 1 := by
  have h := add_leve_unconditional_insert [] 7 "t1" "2999-12-31" "Plateau"
    "Dakar" "Dakar" "Champs" (-3) "TRIMBLE" "Arona FALL" "bob"
    { y := 2999, m := 12, d := 31 } (by decide)
  exact ⟨h.1, h.2.1⟩

/-! ### Entry-form session state (src/pages/saisie.py) -/

/-- The `cached_form_data` dictionary of the session state (src/pages/
saisie.py lines 45-53): `type_leve` holds the index into the type-option
list, as the source stores it. -/
structure CachedFormData where
  region : String
  commune : String
  village : String
  appareil : String
  type_leve : Nat
  quantite : Int
  topographe : String
deriving DecidableEq

/-- The initial/default draft (src/pages/saisie.py lines 45-53 and the
identical reset literal at lines 629-637). -/
def initialCachedFormData : CachedFormData :=
  { region := "", commune := "", village := "", appareil := "",
    type_leve := 0, quantite := 1, topographe := "" }

/-- The session-state fields the submission path touches. `form_key`
versions the form's widget state: while it is unchanged the values the
user entered remain in the widgets; bumping it discards them. -/
structure SessionState where
  form_key : Nat
  cached_form_data : CachedFormData
  form_submitted : Bool
  show_success_message : Bool
deriving DecidableEq

/-- src/pages/saisie.py lines 328-340: `update_location_cache(region,
commune, current_region, current_commune)`. A changed region writes the
new region and clears commune and village in one state mutation and then
reruns (so the commune branch is not reached in that pass); an unchanged
region with a changed commune writes the commune and clears the village
only. -/
def update_location_cache (region commune : String) (st : SessionState) : SessionState :=
  if region ≠ st.cached_form_data.region then
    { st with cached_form_data :=
        { st.cached_form_data with region := region, commune := "", village := "" } }
  else if commune ≠ st.cached_form_data.commune then
    { st with cached_form_data :=
        { st.cached_form_data with commune := commune, village := "" } }
  else st

/-- The field-level validation rules of src/pages/saisie.py lines 564-583,
one constructor per message literal, in source order. -/
inductive FormError where
  | villageRequired
  | regionRequired
  | communeRequired
  | topographeRequired
  | appareilRequired
  | typeRequired
  | quantitePositive
  | dateFuture
deriving DecidableEq

/-- src/pages/saisie.py lines 564-583: `validate_form_data` accumulates
every violated rule (empty required fields, quantite ≤ 0, date after
today) into one list, in source order. -/
def validate_form_data (today : Ymd) (dateV : Ymd)
    (village region commune type_leve : String) (quantite : Int)
    (appareil topographe : String) : List FormError :=
  (if village = "" then [FormError.villageRequired] else []) ++
  (if region = "" then [FormError.regionRequired] else []) ++
  (if commune = "" then [FormError.communeRequired] else []) ++
  (if topographe = "" then [FormError.topographeRequired] else []) ++
  (if appareil = "" then [FormError.appareilRequired] else []) ++
  (if type_leve = "" then [FormError.typeRequired] else []) ++
  (if quantite ≤ 0 then [FormError.quantitePositive] else []) ++
  (if ymdAfter dateV today then [FormError.dateFuture] else [])

/-- src/pages/saisie.py line 587: the type-option list. -/
def type_options : List String :=
  ["Bâtiments", "Champs", "Édifice public", "Autre"]

def idxOfAux (t : String) (i : Nat) : List String → Nat
  | [] => 0
  | x :: xs => if x = t then i else idxOfAux t (i + 1) xs

/-- src/pages/saisie.py lines 589-592: `type_options.index(type_leve)` when
present, else 0. -/
def typeIndex (t : String) : Nat := idxOfAux t 0 type_options

/-- src/pages/saisie.py lines 585-602: `update_form_cache` overwrites all
seven draft fields with the submitted values (type as its option
index). -/
def update_form_cache (st : SessionState)
    (region commune village appareil type_leve : String) (quantite : Int)
    (topographe : String) : SessionState :=
  { st with cached_form_data :=
      { region := region, commune := commune, village := village,
        appareil := appareil, type_leve := typeIndex type_leve,
        quantite := quantite, topographe := topographe } }

/-- src/pages/saisie.py lines 627-639: `reset_form_state` restores the
default draft and bumps `form_key`. -/
def reset_form_state (st : SessionState) : SessionState :=
  { st with cached_form_data := initialCachedFormData,
            form_key := st.form_key + 1 }

/-- src/pages/saisie.py lines 604-625: `handle_successful_submission`
marks success, marks the form submitted, and resets the form. -/
def handle_successful_submission (st : SessionState) : SessionState :=
  reset_form_state { st with show_success_message := true, form_submitted := true }

/-- The values the user submitted from the form widgets. -/
structure SubmitInput where
  date : Ymd
  village : String
  region : String
  commune : String
  type_leve : String
  quantite : Int
  appareil : String
  topographe : String
  superviseur : String
deriving DecidableEq

def pad2 (n : Nat) : String := if n < 10 then "0" ++ toString n else toString n

/-- Python `date.strftime("%Y-%m-%d")` for four-digit years. -/
def ymdToStr (d : Ymd) : String :=
  toString d.y ++ "-" ++ pad2 d.m ++ "-" ++ pad2 d.d

inductive SubmitOutcome where
  | validationFailed (errors : List FormError)
  | writeFailed
  | succeeded
deriving DecidableEq

/-- src/pages/saisie.py lines 525-562: `handle_form_submission`. If any
validation rule is violated, all errors are displayed and the function
returns before touching the cache or the storage; otherwise the cache is
updated with the submitted values, `add_leve` is invoked, and on success
`handle_successful_submission` runs while on failure only an error is
shown (cache and form_key untouched). -/
def handle_form_submission (today : Ymd) (inp : SubmitInput) (st : SessionState)
    (db : List LeveRow) (newId : Nat) (now : String) (connOk : Bool) :
    SessionState × List LeveRow × SubmitOutcome :=
  let errors := validate_form_data today inp.date inp.village inp.region
    inp.commune inp.type_leve inp.quantite inp.appareil inp.topographe
  if errors ≠ [] then (st, db, SubmitOutcome.validationFailed errors)
  else
    let st1 := update_form_cache st inp.region inp.commune inp.village
      inp.appareil inp.type_leve inp.quantite inp.topographe
    let res := add_leve connOk db newId now (ymdToStr inp.date) inp.village
      inp.region inp.commune inp.type_leve inp.quantite inp.appareil
      inp.topographe inp.superviseur
    if res.2 then (handle_successful_submission st1, res.1, SubmitOutcome.succeeded)
    else (st1, db, SubmitOutcome.writeFailed)

/-! ### Claim C5 -/

/-- Claim C5: on any draft state, selecting a region different from the
cached one yields — in one atomic state transition — the new region with
commune and village both cleared; selecting a commune different from the
cached one while the region is unchanged clears only the village, writes
the commune, and leaves every other draft field (the region in
particular) untouched; and whenever the selected region is unchanged the
region field keeps its value, so no commune or village change ever clears
the region. -/
theorem cascade_clear_invariant (st : SessionState) (region commune : String) :
    (region ≠ st.cached_form_data.region →
      (update_location_cache region commune st).cached_form_data =
        { st.cached_form_data with region := region, commune := "", village := "" }) ∧
    (region = st.cached_form_data.region → commune ≠ st.cached_form_data.commune →
      (update_location_cache region commune st).cached_form_data =
        { st.cached_form_data with commune := commune, village := "" }) ∧
    (region = st.cached_form_data.region →
      (update_location_cache region commune st).cached_form_data.region =
        st.cached_form_data.region) := by
  refine ⟨?_, ?_, ?_⟩
  · intro h
    unfold update_location_cache
    rw [if_pos h]
  · intro h hc
    unfold update_location_cache
    rw [if_neg (by simpa using h), if_pos hc]
  · intro h
    unfold update_location_cache
    rw [if_neg (by simpa using h)]
    by_cases hc : commune ≠ st.cached_form_data.commune
    · rw [if_pos hc]
    · rw [if_neg hc]

/-- Claim C5 witness: changing region from Thiès to Dakar clears commune
Mbour and village Mbour 1 in the same transition, and a commune-only
change keeps the region. -/
theorem cascade_clear_invariant_witness :
    (update_location_cache "Dakar" "Mbour"
      { form_key := 0,
        cached_form_data :=
          { region := "Thies", commune := "Mbour", village := "Mbour 1",
            appareil := "", type_leve := 0, quantite := 1, topographe := "" },
        form_submitted := false, show_success_message := false }).cached_form_data =
      { region := "Dakar", commune := "", village := "", appareil := "",
        type_leve := 0, quantite := 1, topographe := "" } ∧
    (update_location_cache "Thies" "Thies"
      { form_key := 0,
        cached_form_data :=
          { region := "Thies", commune := "Mbour", village := "Mbour 1",
            appareil := "", type_leve := 0, quantite := 1, topographe := "" },
        form_submitted := false, show_success_message := false }).cached_form_data.region =
      "Thies" := by
  constructor
  · exact (cascade_clear_invariant
      { form_key := 0,
        cached_form_data :=
          { region := "Thies", commune := "Mbour", village := "Mbour 1",
            appareil := "", type_leve := 0, quantite := 1, topographe := "" },
        form_submitted := false, show_success_message := false }
      "Dakar" "Mbour").1 (by decide)
  · exact (cascade_clear_invariant
      { form_key := 0,
        cached_form_data :=
          { region := "Thies", commune := "Mbour", village := "Mbour 1",
            appareil := "", type_leve := 0, quantite := 1, topographe := "" },
        form_submitted := false, show_success_message := false }
      "Thies" "Thies").2.2 (by decide)

/-! ### Claim C7 -/

/-- Claim C7: a draft violating several rules at once reports all of them
together — for empty village, quantite = 0 and a future date exactly the
three corresponding violations are returned in one list — and whenever any
rule is violated, `handle_form_submission` returns with the full error
list, the unchanged session state and the unchanged table: the create
operation is never invoked. -/
theorem validation_complete_no_write :
    validate_form_data { y := 2026, m := 10, d := 12 } { y := 2026, m := 10, d := 13 }
      "" "Thies" "Mbour" "Champs" 0 "LT60H" "Mamadou GUEYE" =
      [FormError.villageRequired, FormError.quantitePositive, FormError.dateFuture] ∧
    ∀ (today : Ymd) (inp : SubmitInput) (st : SessionState) (db : List LeveRow)
      (newId : Nat) (now : String) (connOk : Bool),
      validate_form_data today inp.date inp.village inp.region inp.commune
        inp.type_leve inp.quantite inp.appareil inp.topographe ≠ [] →
      handle_form_submission today inp st db newId now connOk =
        (st, db, SubmitOutcome.validationFailed
          (validate_form_data today inp.date inp.village inp.region inp.commune
            inp.type_leve inp.quantite inp.appareil inp.topographe)) := by
  constructor
  · decide
  · intro today inp st db newId now connOk herr
    unfold handle_form_submission
    rw [if_pos herr]

/-- Claim C7 witness: submitting the three-violation draft leaves the
state and the table untouched and reports the three violations. -/
theorem validation_complete_no_write_witness :
    handle_form_submission { y := 2026, m := 10, d := 12 }
      { date := { y := 2026, m := 10, d := 13 }, village := "", region := "Thies",
        commune := "Mbour", type_leve := "Champs", quantite := 0,
        appareil := "LT60H", topographe := "Mamadou GUEYE", superviseur := "bob" }
      { form_key := 3, cached_form_data := initialCachedFormData,
        form_submitted := false, show_success_message := false }
      [] 1 "t0" true =
      ({ form_key := 3, cached_form_data := initialCachedFormData,
         form_submitted := false, show_success_message := false },
       [],
       SubmitOutcome.validationFailed
         [FormError.villageRequired, FormError.quantitePositive, FormError.dateFuture]) := by
  have h := validation_complete_no_write.2 { y := 2026, m := 10, d := 12 }
    { date := { y := 2026, m := 10, d := 13 }, village := "", region := "Thies",
      commune := "Mbour", type_leve := "Champs", quantite := 0,
      appareil := "LT60H", topographe := "Mamadou GUEYE", superviseur := "bob" }
    { form_key := 3, cached_form_data := initialCachedFormData,
      form_submitted := false, show_success_message := false }
    [] 1 "t0" true (by decide)
  rw [h]
  rfl

/-! ### Claim C9 -/

/-- Claim C9: when the write succeeds, the whole draft is reset to its
initial values (empty location, equipment and surveyor fields, type index
0, quantity 1), the success flag is set and the form is re-keyed; when
validation fails, the session state is completely unchanged (cache and
form_key intact, so the entered widget values persist); when the write
fails, the cache holds exactly the values the user entered and the
form_key and flags are unchanged — no input is lost in either failure
case. -/
theorem submit_reset_or_preserve (today : Ymd) (inp : SubmitInput)
    (st : SessionState) (db : List LeveRow) (newId : Nat) (now : String)
    (connOk : Bool) :
    (validate_form_data today inp.date inp.village inp.region inp.commune
        inp.type_leve inp.quantite inp.appareil inp.topographe ≠ [] →
      (handle_form_submission today inp st db newId now connOk).1 = st) ∧
    (validate_form_data today inp.date inp.village inp.region inp.commune
        inp.type_leve inp.quantite inp.appareil inp.topographe = [] →
      connOk = false →
      (handle_form_submission today inp st db newId now connOk).1 =
        { st with cached_form_data :=
            { region := inp.region, commune := inp.commune,
              village := inp.village, appareil := inp.appareil,
              type_leve := typeIndex inp.type_leve, quantite := inp.quantite,
              topographe := inp.topographe } } ∧
      (handle_form_submission today inp st db newId now connOk).1.form_key = st.form_key ∧
      (handle_form_submission today inp st db newId now connOk).1.show_success_message =
        st.show_success_message ∧
      (handle_form_submission today inp st db newId now connOk).2.1 = db) ∧
    (validate_form_data today inp.date inp.village inp.region inp.commune
        inp.type_leve inp.quantite inp.appareil inp.topographe = [] →
      connOk = true →
      (handle_form_submission today inp st db newId now connOk).1.cached_form_data =
        initialCachedFormData ∧
      (handle_form_submission today inp st db newId now connOk).1.show_success_message = true ∧
      (handle_form_submission today inp st db newId now connOk).1.form_key = st.form_key + 1 ∧
      (handle_form_submission today inp st db newId now connOk).2.2 =
        SubmitOutcome.succeeded) := by
  refine ⟨?_, ?_, ?_⟩
  · intro herr
    unfold handle_form_submission
    rw [if_pos herr]
  · intro herr hconn
    subst hconn
    unfold handle_form_submission
    rw [if_neg (by simpa using herr)]
    unfold add_leve
    simp only [if_pos rfl]
    exact ⟨rfl, rfl, rfl, rfl⟩
  · intro herr hconn
    subst hconn
    unfold handle_form_submission
    rw [if_neg (by simpa using herr)]
    unfold add_leve
    simp only [Bool.true_eq_false, if_false]
    exact ⟨rfl, rfl, rfl, rfl⟩

/-- Claim C9 witness: a valid draft submitted with a working connection
resets the draft and sets the success flag; the same draft with a failed
connection keeps the entered values and the form key. -/
theorem submit_reset_or_preserve_witness :
    ((handle_form_submission { y := 2026, m := 10, d := 12 }
      { date := { y := 2026, m := 10, d := 12 }, village := "Mbour 1",
        region := "Thies", commune := "Mbour", type_leve := "Champs",
        quantite := 5, appareil := "LT60H", topographe := "Mamadou GUEYE",
        superviseur := "bob" }
      { form_key := 3, cached_form_data := initialCachedFormData,
        form_submitted := false, show_success_message := false }
      [] 1 "t0" true).1.cached_form_data = initialCachedFormData ∧
     (handle_form_submission { y := 2026, m := 10, d := 12 }
      { date := { y := 2026, m := 10, d := 12 }, village := "Mbour 1",
        region := "Thies", commune := "Mbour", type_leve := "Champs",
        quantite := 5, appareil := "LT60H", topographe := "Mamadou GUEYE",
        superviseur := "bob" }
      { form_key := 3, cached_form_data := initialCachedFormData,
        form_submitted := false, show_success_message := false }
      [] 1 "t0" true).1.show_success_message = true) ∧
    (handle_form_submission { y := 2026, m := 10, d := 12 }
      { date := { y := 2026, m := 10, d := 12 }, village := "Mbour 1",
        region := "Thies", commune := "Mbour", type_leve := "Champs",
        quantite := 5, appareil := "LT60H", topographe := "Mamadou GUEYE",
        superviseur := "bob" }
      { form_key := 3, cached_form_data := initialCachedFormData,
        form_submitted := false, show_success_message := false }
      [] 1 "t0" false).1.cached_form_data.village = "Mbour 1" := by
  have hs := submit_reset_or_preserve { y := 2026, m := 10, d := 12 }
    { date := { y := 2026, m := 10, d := 12 }, village := "Mbour 1",
      region := "Thies", commune := "Mbour", type_leve := "Champs",
      quantite := 5, appareil := "LT60H", topographe := "Mamadou GUEYE",
      superviseur := "bob" }
    { form_key := 3, cached_form_data := initialCachedFormData,
      form_submitted := false, show_success_message := false }
    [] 1 "t0" true
  have hf := submit_reset_or_preserve { y := 2026, m := 10, d := 12 }
    { date := { y := 2026, m := 10, d := 12 }, village := "Mbour 1",
      region := "Thies", commune := "Mbour", type_leve := "Champs",
      quantite := 5, appareil := "LT60H", topographe := "Mamadou GUEYE",
      superviseur := "bob" }
    { form_key := 3, cached_form_data := initialCachedFormData,
      form_submitted := false, show_success_message := false }
    [] 1 "t0" false
  have h1 := hs.2.2 (by decide) rfl
  have h2 := (hf.2.1 (by decide) rfl).1
  exact ⟨⟨h1.1, h1.2.1⟩, by rw [h2]⟩

/-! ### Location hierarchy (src/villages.py)

The nested Python dicts {region: {commune: [villages]}} become association
lists whose insertion functions update the first entry with a matching key
and append new keys at the end, exactly like dict insertion order. -/

structure VRow where
  region : String
  commune : String
  village : String
deriving DecidableEq

/-- src/villages.py lines 57-65: strip the three fields of a row and skip
the row when any of them is empty or the string `nan` after stripping. -/
def cleanRow (row : VRow) : Option VRow :=
  let r := pyStrip row.region
  let c := pyStrip row.commune
  let v := pyStrip row.village
  if r = "" ∨ c = "" ∨ v = "" ∨ r = "nan" ∨ c = "nan" ∨ v = "nan" then none
  else some { region := r, commune := c, village := v }

def cleanRows (rows : List VRow) : List VRow := rows.filterMap cleanRow

abbrev CommuneMap := List (String × List String)

abbrev VillagesData := List (String × CommuneMap)

/-- src/villages.py lines 72-73: append the village to the bucket unless it
is already present. -/
def bucketInsert (b : List String) (v : String) : List String :=
  if b.contains v then b else b ++ [v]

/-- Insert a village into the commune map of one region (src/villages.py
lines 70-73). -/
def updCM (ckey v : String) : CommuneMap → CommuneMap
  | [] => [(ckey, [v])]
  | (c0, b) :: rest =>
    if c0 = ckey then (c0, bucketInsert b v) :: rest
    else (c0, b) :: updCM ckey v rest

/-- Insert one cleaned row into the nested structure (src/villages.py
lines 68-73). -/
def updVD (rkey ckey v : String) : VillagesData → VillagesData
  | [] => [(rkey, [(ckey, [v])])]
  | (r0, cm) :: rest =>
    if r0 = rkey then (r0, updCM ckey v cm) :: rest
    else (r0, cm) :: updVD rkey ckey v rest

def findCM (rkey : String) : VillagesData → Option CommuneMap
  | [] => none
  | (r0, cm) :: rest => if r0 = rkey then some cm else findCM rkey rest

def findBucket (ckey : String) : CommuneMap → Option (List String)
  | [] => none
  | (c0, b) :: rest => if c0 = ckey then some b else findBucket ckey rest

/-- Python `region in villages_data and commune in villages_data[region]`
followed by the indexing, as one lookup. -/
def lookupBucket (data : VillagesData) (rkey ckey : String) : Option (List String) :=
  match findCM rkey data with
  | none => none
  | some cm => findBucket ckey cm

def buildRaw (rows : List VRow) : VillagesData :=
  (cleanRows rows).foldl (fun d x => updVD x.region x.commune x.village d) []

/-- src/villages.py lines 81-83: sort every village list. -/
def sortData (data : VillagesData) : VillagesData :=
  data.map (fun p => (p.1, p.2.map (fun q => (q.1, sortStrings q.2))))

/-- src/villages.py lines 57-95: `load_villages_data_cached` builds the
nested structure from the cleaned rows and sorts each bucket. -/
def load_villages_data_cached (rows : List VRow) : VillagesData :=
  sortData (buildRaw rows)

/-- src/villages.py lines 152-162: `get_villages_list(region, commune)`
returns the sentinel list [""] when either key is empty or unknown, and
[""] ++ bucket otherwise. -/
def get_villages_list (rows : List VRow) (region commune : String) : List String :=
  if region = "" ∨ commune = "" then [""]
  else
    match lookupBucket (load_villages_data_cached rows) region commune with
    | some b => "" :: b
    | none => [""]

/-- The villages of the cleaned rows carrying the given (region, commune)
pair, in row order. -/
def villagesIn (rows : List VRow) (rkey ckey : String) : List String :=
  rows.filterMap (fun x =>
    if x.region = rkey ∧ x.commune = ckey then some x.village else none)

/-- The villages supplied for a pair after cleaning. -/
def suppliedVillages (rows : List VRow) (rkey ckey : String) : List String :=
  villagesIn (cleanRows rows) rkey ckey

/-- Modelled from the spec: de-duplication keeping first occurrences
("insert village into the bucket if not already present"). -/
def dedupFirst (l : List String) : List String := l.foldl bucketInsert []

/-- Modelled from the spec: the de-duplicated, ascending-sorted villages
supplied for a (region, commune) pair — the value the round-trip claim
says `villages(region, commune)` returns. -/
def spec_sorted_villages (rows : List VRow) (rkey ckey : String) : List String :=
  sortStrings (dedupFirst (suppliedVillages rows rkey ckey))

/-- Accumulating a list of villages into an optional bucket, tracking the
effect of successive `updVD` calls on one (region, commune) slot. -/
def foldIns : Option (List String) → List String → Option (List String)
  | b, [] => b
  | b, v :: vs => foldIns (some (bucketInsert (b.getD []) v)) vs

theorem findBucket_updCM (ckey v lk : String) (cm : CommuneMap) :
    findBucket lk (updCM ckey v cm) =
      if ckey = lk then some (bucketInsert ((findBucket lk cm).getD []) v)
      else findBucket lk cm := by
  induction cm with
  | nil =>
    by_cases h : ckey = lk
    · simp [updCM, findBucket, h, bucketInsert]
    · simp [updCM, findBucket, h]
  | cons hd rest ih =>
    obtain ⟨c0, b⟩ := hd
    by_cases hk : c0 = ckey
    · subst hk
      by_cases hc : c0 = lk
      · subst hc
        simp [updCM, findBucket]
      · simp [updCM, findBucket, hc]
    · by_cases hc : c0 = lk
      · subst hc
        have : ckey ≠ c0 := fun h => hk h.symm
        simp [updCM, findBucket, hk, this]
      · simp [updCM, findBucket, hk, hc, ih]

theorem lookupBucket_updVD (rkey ckey v rl cl : String) (d : VillagesData) :
    lookupBucket (updVD rkey ckey v d) rl cl =
      if rkey = rl ∧ ckey = cl then
        some (bucketInsert ((lookupBucket d rl cl).getD []) v)
      else lookupBucket d rl cl := by
  induction d with
  | nil =>
    by_cases hr : rkey = rl
    · by_cases hc : ckey = cl
      · simp [updVD, lookupBucket, findCM, findBucket, hr, hc, bucketInsert]
      · simp [updVD, lookupBucket, findCM, findBucket, hr, hc]
    · simp [updVD, lookupBucket, findCM, hr, fun h : rkey = rl ∧ ckey = cl => hr h.1]
  | cons hd rest ih =>
    obtain ⟨r0, cm⟩ := hd
    by_cases hk : r0 = rkey
    · subst hk
      by_cases hr : r0 = rl
      · subst hr
        have h1 : updVD r0 ckey v ((r0, cm) :: rest) = (r0, updCM ckey v cm) :: rest := by
          simp [updVD]
        rw [h1]
        have h2 : lookupBucket ((r0, updCM ckey v cm) :: rest) r0 cl =
            findBucket cl (updCM ckey v cm) := by
          simp [lookupBucket, findCM]
        have h3 : lookupBucket ((r0, cm) :: rest) r0 cl = findBucket cl cm := by
          simp [lookupBucket, findCM]
        rw [h2, h3, findBucket_updCM]
        by_cases hc : ckey = cl
        · simp [hc]
        · simp [hc]
      · have h1 : updVD r0 ckey v ((r0, cm) :: rest) = (r0, updCM ckey v cm) :: rest := by
          simp [updVD]
        rw [h1, if_neg (fun h : r0 = rl ∧ ckey = cl => hr h.1)]
        simp [lookupBucket, findCM, hr]
    · by_cases hr : r0 = rl
      · subst hr
        have h1 : updVD rkey ckey v ((r0, cm) :: rest) = (r0, cm) :: updVD rkey ckey v rest := by
          simp [updVD, hk]
        rw [h1, if_neg (fun h : rkey = r0 ∧ ckey = cl => hk h.1.symm)]
        simp [lookupBucket, findCM]
      · have h1 : updVD rkey ckey v ((r0, cm) :: rest) = (r0, cm) :: updVD rkey ckey v rest := by
          simp [updVD, hk]
        rw [h1]
        have h2 : lookupBucket ((r0, cm) :: updVD rkey ckey v rest) rl cl =
            lookupBucket (updVD rkey ckey v rest) rl cl := by
          simp [lookupBucket, findCM, hr]
        have h3 : lookupBucket ((r0, cm) :: rest) rl cl = lookupBucket rest rl cl := by
          simp [lookupBucket, findCM, hr]
        rw [h2, h3, ih]

theorem lookupBucket_foldl (rows : List VRow) (d : VillagesData) (rl cl : String) :
    lookupBucket (rows.foldl (fun acc x => updVD x.region x.commune x.village acc) d) rl cl =
      foldIns (lookupBucket d rl cl) (villagesIn rows rl cl) := by
  induction rows generalizing d with
  | nil => simp [villagesIn, foldIns]
  | cons x rows ih =>
    simp only [List.foldl_cons]
    rw [ih]
    by_cases hx : x.region = rl ∧ x.commune = cl
    · rw [lookupBucket_updVD]
      rw [if_pos hx]
      have : villagesIn (x :: rows) rl cl = x.village :: villagesIn rows rl cl := by
        simp [villagesIn, List.filterMap_cons, hx]
      rw [this]
      rfl
    · rw [lookupBucket_updVD]
      rw [if_neg hx]
      have : villagesIn (x :: rows) rl cl = villagesIn rows rl cl := by
        simp [villagesIn, List.filterMap_cons, hx]
      rw [this]

theorem foldIns_some (vs : List String) (b : List String) :
    foldIns (some b) vs = some (vs.foldl bucketInsert b) := by
  induction vs generalizing b with
  | nil => rfl
  | cons v vs ih => simp [foldIns, List.foldl_cons, ih]

theorem foldIns_none_ne_nil (v : String) (vs : List String) :
    foldIns none (v :: vs) = some (dedupFirst (v :: vs)) := by
  show foldIns (some (bucketInsert [] v)) vs = some (dedupFirst (v :: vs))
  rw [foldIns_some]
  rfl

theorem findBucket_map_sort (cm : CommuneMap) (cl : String) :
    findBucket cl (cm.map (fun q => (q.1, sortStrings q.2))) =
      (findBucket cl cm).map sortStrings := by
  induction cm with
  | nil => rfl
  | cons hd rest ih =>
    obtain ⟨c0, b⟩ := hd
    by_cases h : c0 = cl
    · simp [findBucket, h]
    · simp [findBucket, h, ih]

theorem lookupBucket_sortData (d : VillagesData) (rl cl : String) :
    lookupBucket (sortData d) rl cl = (lookupBucket d rl cl).map sortStrings := by
  induction d with
  | nil => rfl
  | cons hd rest ih =>
    obtain ⟨r0, cm⟩ := hd
    by_cases h : r0 = rl
    · simp [sortData, lookupBucket, findCM, h, findBucket_map_sort]
    · simp only [sortData, List.map_cons, lookupBucket, findCM, if_neg h]
      have := ih
      simp only [lookupBucket, sortData] at this
      exact this

theorem villagesIn_ne_nil_mem (rows : List VRow) (rl cl : String)
    (h : villagesIn rows rl cl ≠ []) :
    ∃ x ∈ rows, x.region = rl ∧ x.commune = cl := by
  induction rows with
  | nil => exact absurd rfl h
  | cons x rows ih =>
    by_cases hx : x.region = rl ∧ x.commune = cl
    · exact ⟨x, List.mem_cons_self x rows, hx⟩
    · have : villagesIn (x :: rows) rl cl = villagesIn rows rl cl := by
        simp [villagesIn, List.filterMap_cons, hx]
      rw [this] at h
      obtain ⟨y, hy, hyp⟩ := ih h
      exact ⟨y, List.mem_cons_of_mem x hy, hyp⟩

theorem cleanRows_fields_ne_blank (rows : List VRow) (x : VRow)
    (hx : x ∈ cleanRows rows) : x.region ≠ "" ∧ x.commune ≠ "" := by
  rw [cleanRows, List.mem_filterMap] at hx
  obtain ⟨row, _, hrow⟩ := hx
  simp only [cleanRow] at hrow
  split_ifs at hrow with h
  rw [Option.some_inj] at hrow
  push_neg at h
  subst hrow
  exact ⟨h.1, h.2.1⟩

/-! ### Claim C6 -/

/-- Claim C6 counterexample: the claim says the query returns exactly the
de-duplicated ascending-sorted villages supplied for the pair; on the
single well-formed row (Thies, Mbour, Mbour 1) that set is [Mbour 1], but
`get_villages_list` returns it with a leading empty-selection sentinel
prepended. -/
theorem villages_roundtrip_counterexample :
    get_villages_list [{ region := "Thies", commune := "Mbour", village := "Mbour 1" }]
      "Thies" "Mbour" = ["", "Mbour 1"] ∧
    spec_sorted_villages [{ region := "Thies", commune := "Mbour", village := "Mbour 1" }]
      "Thies" "Mbour" = ["Mbour 1"] ∧
    get_villages_list [{ region := "Thies", commune := "Mbour", village := "Mbour 1" }]
      "Thies" "Mbour" ≠
    spec_sorted_villages [{ region := "Thies", commune := "Mbour", village := "Mbour 1" }]
      "Thies" "Mbour" := by
  refine ⟨by decide, by decide, by decide⟩

/-- Claim C6 (amended): for any rows, building the hierarchy (strip all
three fields, skip rows with an empty or missing field, de-duplicate
villages within each (region, commune) pair keeping first occurrences,
sort each bucket ascending) and then querying `get_villages_list(region,
commune)` returns the empty-selection sentinel followed by exactly the
de-duplicated, ascending-sorted villages supplied for that pair, for every
pair present in the cleaned input. -/
theorem villages_roundtrip_with_sentinel (rows : List VRow) (rl cl : String)
    (hpair : suppliedVillages rows rl cl ≠ []) :
    get_villages_list rows rl cl = "" :: spec_sorted_villages rows rl cl := by
  obtain ⟨x, hxmem, hxr, hxc⟩ := villagesIn_ne_nil_mem (cleanRows rows) rl cl hpair
  have hblank := cleanRows_fields_ne_blank rows x hxmem
  have hrne : rl ≠ "" := by rw [← hxr]; exact hblank.1
  have hcne : cl ≠ "" := by rw [← hxc]; exact hblank.2
  unfold get_villages_list
  rw [if_neg (by push_neg; exact ⟨hrne, hcne⟩)]
  unfold load_villages_data_cached
  rw [lookupBucket_sortData]
  unfold buildRaw
  rw [lookupBucket_foldl]
  have hnone : lookupBucket [] rl cl = none := rfl
  rw [hnone]
  unfold suppliedVillages at hpair
  rcases hv : villagesIn (cleanRows rows) rl cl with _ | ⟨v, vs⟩
  · exact absurd hv hpair
  · rw [foldIns_none_ne_nil]
    unfold spec_sorted_villages suppliedVillages
    rw [hv]
    rfl

/-- Claim C6 witness: four rows with one duplicate and unsorted villages
for the pair (Thies, Mbour) round-trip to the sentinel followed by the
sorted, de-duplicated villages. -/
theorem villages_roundtrip_with_sentinel_witness :
    get_villages_list
      [{ region := "Thies", commune := "Mbour", village := "Mbour 2" },
       { region := "Thies", commune := "Mbour", village := "Mbour 1" },
       { region := "Thies", commune := "Mbour", village := "Mbour 2" },
       { region := "Dakar", commune := "Dakar", village := "Plateau" }]
      "Thies" "Mbour" = ["", "Mbour 1", "Mbour 2"] := by
  have h := villages_roundtrip_with_sentinel
    [{ region := "Thies", commune := "Mbour", village := "Mbour 2" },
     { region := "Thies", commune := "Mbour", village := "Mbour 1" },
     { region := "Thies", commune := "Mbour", village := "Mbour 2" },
     { region := "Dakar", commune := "Dakar", village := "Plateau" }]
    "Thies" "Mbour" (by decide)
  rw [h]
  decide

end Topodaily
